import Mathlib

/-
Verification of the Story Maker backend (src/main.py) against its
specification. The service is embedded shallowly: the external model
provider is a function from the submitted prompt to an outcome, the
process-wide `model` global is an `Option Provider`, exceptions become
`Except`, and the single HTTP handler pair is modelled as pure functions
which additionally report the list of prompts submitted to the provider
(so that the number of provider calls can be counted).
-/

namespace StoryMaker

/-- An HTTP exception as raised by the handlers: fastapi.HTTPException
with a status code and a detail message. -/
structure HTTPException where
  status_code : Nat
  detail : String
deriving DecidableEq

/-- Outcome of one call to `model.generate_content_async(prompt)`:
either it returns a response object (with its Python truthiness and its
`.text` payload, the empty string standing for an empty/falsy text), or
it raises an exception carrying a message. -/
inductive ProviderOutcome where
  | ok (truthy : Bool) (text : String)
  | exn (msg : String)
deriving DecidableEq

/-- The external model provider: maps the submitted prompt to the outcome
of that single call. -/
abbrev Provider := String → ProviderOutcome

/-- A Python exception value flowing to an `except Exception` clause:
either an `HTTPException` raised by the handler itself or any other
exception (from the provider call). -/
inductive PyError where
  | httpExc (e : HTTPException)
  | otherExn (msg : String)
deriving DecidableEq

/-- Request body of POST /generate-treatment (class PlotInput, main.py
lines 34-35). -/
structure PlotInput where
  plot : String
deriving DecidableEq

/-- Response body of POST /generate-treatment (class TreatmentOutput,
main.py lines 37-38). -/
structure TreatmentOutput where
  treatment : String
deriving DecidableEq

/-- The f-string prompt template of main.py lines 50-55: a fixed
instruction, then the plot, then a fixed trailer. -/
def promptFor (plot_text : String) : String :=
  "Expand the following story plot into a detailed story in just 250 words. Focus on outlining key scenes, character arcs, and potential turning points.\n\nPlot:\n"
    ++ plot_text ++ "\n\nTreatment:"

/-- The static text of the template before the plot slot. -/
def promptHead : String :=
  "Expand the following story plot into a detailed story in just 250 words. Focus on outlining key scenes, character arcs, and potential turning points.\n\nPlot:\n"

/-- The static text of the template after the plot slot. -/
def promptTail : String :=
  "\n\nTreatment:"

/-- Detail of the HTTPException constructed at main.py lines 62-65 when
the provider response is falsy or has falsy text. -/
def emptyResponseDetail : String :=
  "Failed to generate story treatment. The model returned an empty response."

/-- Detail of the HTTPException raised by the `except Exception` clause
at main.py lines 72-75. -/
def genericErrorDetail : String :=
  "Failed to generate story treatment due to an internal error."

/-- The body of the `try` block of `generate_treatment` (main.py lines
56-67): a single provider call; a falsy response or falsy `.text` raises
an HTTPException with `emptyResponseDetail` (from inside the `try`),
otherwise the text is returned. A provider exception propagates. -/
def tryGenerate (gen : Provider) (prompt : String) : Except PyError String :=
  match gen prompt with
  | ProviderOutcome.ok truthy text =>
      if truthy = false ∨ text = "" then
        Except.error (PyError.httpExc ⟨500, emptyResponseDetail⟩)
      else
        Except.ok text
  | ProviderOutcome.exn msg => Except.error (PyError.otherExn msg)

/-- Shallow embedding of `generate_treatment` (main.py lines 41-75).
Checks the global `model` first (503 when unset), then the plot (400
when empty), then runs the `try` block; any exception escaping the `try`
block — including the empty-response HTTPException raised inside it — is
caught by `except Exception` and replaced by a generic 500. The second
component lists the prompts submitted to the provider. -/
def generate_treatment (model : Option Provider) (plot_text : String) :
    Except HTTPException String × List String :=
  match model with
  | none => (Except.error ⟨503, "AI Model not available"⟩, [])
  | some gen =>
      if plot_text = "" then
        (Except.error ⟨400, "Plot cannot be empty"⟩, [])
      else
        let prompt := promptFor plot_text
        match tryGenerate gen prompt with
        | Except.ok text => (Except.ok text, [prompt])
        | Except.error _e => (Except.error ⟨500, genericErrorDetail⟩, [prompt])

/-- HTTP status of a `generate_treatment` outcome once mapped by FastAPI:
200 for a returned value, the exception's status code otherwise. -/
def genStatus (r : Except HTTPException String) : Nat :=
  match r with
  | Except.ok _ => 200
  | Except.error e => e.status_code

/-- Shallow embedding of the POST /generate-treatment handler
`create_treatment` (main.py lines 104-109): delegates to
`generate_treatment` and wraps the text in a `TreatmentOutput`. -/
def create_treatment (model : Option Provider) (plot_input : PlotInput) :
    Except HTTPException TreatmentOutput × List String :=
  match generate_treatment model plot_input.plot with
  | (Except.ok t, calls) => (Except.ok ⟨t⟩, calls)
  | (Except.error e, calls) => (Except.error e, calls)

/-- HTTP status of a `create_treatment` outcome. -/
def endpointStatus (r : Except HTTPException TreatmentOutput) : Nat :=
  match r with
  | Except.ok _ => 200
  | Except.error e => e.status_code

/-- Response body of GET / (main.py lines 100-102). -/
structure RootStatus where
  status : String
deriving DecidableEq

/-- Shallow embedding of the GET / handler `root`: a constant body. -/
def root : RootStatus :=
  ⟨"API is running"⟩

/-- The process-wide state: just the global `model` (main.py line 20),
present iff the provider was configured. -/
abbrev ServerState := Option Provider

/-- The two routes of the HTTP surface. -/
inductive Request where
  | getRoot
  | postGenerateTreatment (plot_input : PlotInput)

/-- A response of either route. -/
inductive Response where
  | rootOk (body : RootStatus)
  | treatmentOk (body : TreatmentOutput)
  | httpError (e : HTTPException)

/-- HTTP status of a response. -/
def responseStatus : Response → Nat
  | Response.rootOk _ => 200
  | Response.treatmentOk _ => 200
  | Response.httpError e => e.status_code

/-- Dispatch of one request against the process state: neither handler
assigns the global `model`, so the state comes back unchanged; the middle
component lists the prompts submitted to the provider during the request. -/
def handle (st : ServerState) (req : Request) :
    Response × List String × ServerState :=
  match req with
  | Request.getRoot => (Response.rootOk root, [], st)
  | Request.postGenerateTreatment inp =>
      match create_treatment st inp with
      | (Except.ok out, calls) => (Response.treatmentOk out, calls, st)
      | (Except.error e, calls) => (Response.httpError e, calls, st)

/-- Initialization of the global `model` (main.py lines 17-31): a falsy
API key (absent or empty) leaves it unset; otherwise `configure`
abstracts `genai.configure` plus `GenerativeModel('gemini-2.0-flash')`,
and a configuration exception also leaves it unset. -/
def initModel (api_key : Option String)
    (configure : String → Except String Provider) : ServerState :=
  match api_key with
  | none => none
  | some key =>
      if key = "" then none
      else
        match configure key with
        | Except.ok m => some m
        | Except.error _ => none

/-- Sequential processing of a list of requests, threading the process
state through `handle`. -/
def runServer (st : ServerState) : List Request → ServerState
  | [] => st
  | r :: rs => runServer (handle st r).2.2 rs

/-- Helper: no handler assigns the global `model`, so `handle` returns the
state it was given. -/
theorem handle_preserves_state (st : ServerState) (req : Request) :
    (handle st req).2.2 = st := by
  cases req with
  | getRoot => rfl
  | postGenerateTreatment inp =>
      cases h : create_treatment st inp with
      | mk r calls => cases r <;> simp [handle, h]

/-- Helper: processing any request list leaves the process state unchanged. -/
theorem runServer_id (st : ServerState) (reqs : List Request) :
    runServer st reqs = st := by
  induction reqs generalizing st with
  | nil => rfl
  | cons r rs ih =>
      rw [runServer, handle_preserves_state]
      exact ih st

/-- C1: with the Provider Handle set, a non-empty plot, and a provider
call returning a truthy response with non-empty text T, the endpoint
returns 200 with body treatment = T, the provider text unmodified. -/
theorem C1_success_returns_provider_text (gen : Provider) (plot T : String)
    (hplot : plot ≠ "") (hT : T ≠ "")
    (hgen : gen (promptFor plot) = ProviderOutcome.ok true T) :
    (create_treatment (some gen) ⟨plot⟩).1 = Except.ok ⟨T⟩ ∧
    endpointStatus (create_treatment (some gen) ⟨plot⟩).1 = 200 := by
  simp [create_treatment, generate_treatment, tryGenerate, hgen, hplot, hT,
    endpointStatus]

/-- Witness for C1 at a concrete provider and plot. -/
theorem C1_success_returns_provider_text_witness :
    (create_treatment (some fun _ => ProviderOutcome.ok true "Once upon a time")
        ⟨"A knight"⟩).1 = Except.ok ⟨"Once upon a time"⟩ ∧
    endpointStatus (create_treatment
        (some fun _ => ProviderOutcome.ok true "Once upon a time")
        ⟨"A knight"⟩).1 = 200 :=
  C1_success_returns_provider_text (fun _ => ProviderOutcome.ok true "Once upon a time")
    "A knight" "Once upon a time" (by decide) (by decide) rfl

/-- C6: GET / returns 200 with exactly the body status = "API is running",
whatever the provider configuration state. -/
theorem C6_root_constant (st : ServerState) :
    handle st Request.getRoot = (Response.rootOk ⟨"API is running"⟩, [], st) ∧
    responseStatus (handle st Request.getRoot).1 = 200 ∧
    root = ⟨"API is running"⟩ :=
  ⟨rfl, rfl, rfl⟩

/-- C7: the prompt submitted to the provider is always the fixed template
with the plot interpolated: a static head and a static tail around the
plot body, identical for every input. -/
theorem C7_fixed_prompt_template (gen : Provider) (plot : String)
    (hplot : plot ≠ "") :
    promptFor plot = promptHead ++ plot ++ promptTail ∧
    (generate_treatment (some gen) plot).2 = [promptHead ++ plot ++ promptTail] := by
  refine ⟨rfl, ?_⟩
  show (generate_treatment (some gen) plot).2 = [promptFor plot]
  cases htg : tryGenerate gen (promptFor plot) <;>
    simp [generate_treatment, hplot, htg]

/-- Witness for C7 at a concrete provider and plot. -/
theorem C7_fixed_prompt_template_witness :
    promptFor "A knight" = promptHead ++ "A knight" ++ promptTail ∧
    (generate_treatment (some fun _ => ProviderOutcome.ok true "text")
        "A knight").2 = [promptHead ++ "A knight" ++ promptTail] :=
  C7_fixed_prompt_template (fun _ => ProviderOutcome.ok true "text")
    "A knight" (by decide)

/-- C8: the number of provider calls in a request is exactly one when the
handle is set and the plot is non-empty, exactly zero otherwise; with the
handle absent no call is ever made, and no request makes a second
(retry) call. -/
theorem C8_exactly_one_provider_call (model : Option Provider) (plot : String) :
    (generate_treatment model plot).2.length
      = (if model.isSome = true ∧ plot ≠ "" then 1 else 0) ∧
    (generate_treatment none plot).2 = [] ∧
    (generate_treatment model plot).2.length ≤ 1 := by
  refine ⟨?_, rfl, ?_⟩ <;>
  · cases model with
    | none => simp [generate_treatment]
    | some gen =>
        by_cases hplot : plot = ""
        · simp [generate_treatment, hplot]
        · cases htg : tryGenerate gen (promptFor plot) <;>
            simp [generate_treatment, hplot, htg]

/-- C2 counterexample: with the Provider Handle unset and an empty plot,
the endpoint returns 503, not the claimed 400 — the availability check at
main.py line 42 runs before the emptiness check at line 46. -/
theorem C2_empty_plot_counterexample :
    endpointStatus (create_treatment none ⟨""⟩).1 = 503 ∧ (503 : Nat) ≠ 400 :=
  ⟨rfl, by decide⟩

/-- C2 amended: a request with an empty plot returns 400 when the
Provider Handle is set; when the Handle is unset the availability check
runs first and the endpoint returns 503 even for an empty plot. -/
theorem C2_empty_plot_amended (gen : Provider) (plot : String)
    (hp : plot = "") :
    endpointStatus (create_treatment (some gen) ⟨plot⟩).1 = 400 ∧
    endpointStatus (create_treatment none ⟨plot⟩).1 = 503 := by
  subst hp
  exact ⟨rfl, rfl⟩

/-- Witness for the amended C2 at a concrete provider. -/
theorem C2_empty_plot_amended_witness :
    endpointStatus (create_treatment
        (some fun _ => ProviderOutcome.ok true "text") ⟨""⟩).1 = 400 ∧
    endpointStatus (create_treatment none ⟨""⟩).1 = 503 :=
  C2_empty_plot_amended (fun _ => ProviderOutcome.ok true "text") "" rfl

/-- C3: at the failing input (handle set, non-empty plot, provider
response with empty text) the endpoint does return 500, but its detail
is the generic `genericErrorDetail`, not the empty-generation message:
the HTTPException built at main.py lines 62-65 is raised inside the
`try` block and swallowed by `except Exception` at line 69, which
replaces it with the generic 500 of lines 72-75. -/
theorem C3_empty_generation_message_lost :
    (create_treatment (some fun _ => ProviderOutcome.ok true "") ⟨"A plot"⟩).1
      = Except.error ⟨500, genericErrorDetail⟩ ∧
    genericErrorDetail ≠ emptyResponseDetail := by
  exact ⟨rfl, by decide⟩

/-- C4: when the provider call raises, the endpoint returns 500 and the
response is the fixed constant `genericErrorDetail`, the same for every
exception message — so the raw exception text is never echoed. -/
theorem C4_provider_error_generic_500 (gen gen2 : Provider)
    (plot msg msg2 : String) (hplot : plot ≠ "")
    (hgen : gen (promptFor plot) = ProviderOutcome.exn msg)
    (hgen2 : gen2 (promptFor plot) = ProviderOutcome.exn msg2) :
    (create_treatment (some gen) ⟨plot⟩).1
      = Except.error ⟨500, genericErrorDetail⟩ ∧
    endpointStatus (create_treatment (some gen) ⟨plot⟩).1 = 500 ∧
    create_treatment (some gen) ⟨plot⟩ = create_treatment (some gen2) ⟨plot⟩ := by
  simp [create_treatment, generate_treatment, tryGenerate, hgen, hgen2, hplot,
    endpointStatus]

/-- Witness for C4 at two concrete raising providers. -/
theorem C4_provider_error_generic_500_witness :
    (create_treatment (some fun _ => ProviderOutcome.exn "socket timeout")
        ⟨"A plot"⟩).1 = Except.error ⟨500, genericErrorDetail⟩ ∧
    endpointStatus (create_treatment
        (some fun _ => ProviderOutcome.exn "socket timeout") ⟨"A plot"⟩).1 = 500 ∧
    create_treatment (some fun _ => ProviderOutcome.exn "socket timeout") ⟨"A plot"⟩
      = create_treatment (some fun _ => ProviderOutcome.exn "quota exceeded")
          ⟨"A plot"⟩ :=
  C4_provider_error_generic_500 (fun _ => ProviderOutcome.exn "socket timeout")
    (fun _ => ProviderOutcome.exn "quota exceeded") "A plot"
    "socket timeout" "quota exceeded" (by decide) rfl rfl

/-- C5: with the Provider Handle unset, a POST with any non-empty plot
gets 503, the whole response does not depend on the plot at all, and
GET / still answers 200. -/
theorem C5_unset_handle_503 (p1 p2 : String) (h1 : p1 ≠ "") :
    responseStatus (handle none (Request.postGenerateTreatment ⟨p1⟩)).1 = 503 ∧
    handle none (Request.postGenerateTreatment ⟨p1⟩)
      = handle none (Request.postGenerateTreatment ⟨p2⟩) ∧
    responseStatus (handle none Request.getRoot).1 = 200 :=
  ⟨rfl, rfl, rfl⟩

/-- Witness for C5 at concrete plots. -/
theorem C5_unset_handle_503_witness :
    responseStatus (handle none (Request.postGenerateTreatment ⟨"A plot"⟩)).1 = 503 ∧
    handle none (Request.postGenerateTreatment ⟨"A plot"⟩)
      = handle none (Request.postGenerateTreatment ⟨""⟩) ∧
    responseStatus (handle none Request.getRoot).1 = 200 :=
  C5_unset_handle_503 "A plot" "" (by decide)

/-- C9: the global `model` is fixed by `initModel` at startup and no
request handling mutates it: each `handle` returns the state unchanged,
and any request sequence leaves the initial state intact. -/
theorem C9_handle_read_only (api_key : Option String)
    (configure : String → Except String Provider)
    (st : ServerState) (req : Request) (reqs : List Request) :
    (handle st req).2.2 = st ∧
    runServer (initModel api_key configure) reqs = initModel api_key configure :=
  ⟨handle_preserves_state st req, runServer_id (initModel api_key configure) reqs⟩

/-- C10: the emptiness test `not plot_text` rejects exactly the empty
string: with the handle set, the endpoint answers 400 precisely on plot
= "", and a whitespace-only plot passes validation and triggers a
provider call with that whitespace interpolated into the prompt. -/
theorem C10_only_empty_rejected (gen : Provider) (t s : String)
    (hne : s ≠ "") (hws : s.data.all Char.isWhitespace = true) :
    (genStatus (generate_treatment (some gen) t).1 = 400 ↔ t = "") ∧
    (generate_treatment (some gen) s).2 = [promptFor s] := by
  constructor
  · by_cases ht : t = ""
    · subst ht
      simp [generate_treatment, genStatus]
    · cases htg : tryGenerate gen (promptFor t) <;>
        simp [generate_treatment, genStatus, ht, htg]
  · cases htg : tryGenerate gen (promptFor s) <;>
      simp [generate_treatment, hne, htg]

/-- Witness for C10 with a single-space plot. -/
theorem C10_only_empty_rejected_witness :
    (genStatus (generate_treatment
        (some fun _ => ProviderOutcome.ok true "text") "").1 = 400 ↔ "" = "") ∧
    (generate_treatment (some fun _ => ProviderOutcome.ok true "text") " ").2
      = [promptFor " "] :=
  C10_only_empty_rejected (fun _ => ProviderOutcome.ok true "text") "" " "
    (by decide) (by decide)

end StoryMaker
